import Mathlib

/-!
Shallow embedding of the lohost DNS interposition layer
(src/dylib/lohost_dns_full.c and src/native/linux/lohost_dns.c).

C strings are modelled as `Option (List Char)`: `none` is the NULL
pointer, and each `Char` stands for one byte of the NUL-terminated
string (no embedded NUL bytes exist in a C string).  Machine integers
are modelled as `Int`/`Nat` with explicit `% 2 ^ 16` where the code
truncates through a 16-bit field.  `calloc` failure is modelled by
boolean allocation oracles.  The real resolver (and the captured real
async entry point) are modelled as explicit function parameters, and
each hook's observable behaviour records whether the real function was
invoked and which callback invocations the hook itself performed.
-/

namespace Lohost

/-- `AF_INET` (both platforms use 2). -/
def AF_INET : Int := 2

/-- `AF_INET6` (30 on macOS, 10 on Linux; the code only ever compares
`hints->ai_family` against this constant, so the numeric choice is
immaterial to every statement below). -/
def AF_INET6 : Int := 30

/-- `SOCK_STREAM`. -/
def SOCK_STREAM : Int := 1

/-- `IPPROTO_TCP`. -/
def IPPROTO_TCP : Int := 6

/-- `EAI_SYSTEM` as on Linux. -/
def EAI_SYSTEM : Int := -11

/-- The ten bytes of the literal `".localhost"`. -/
def localhostSuffix : List Char := ['.', 'l', 'o', 'c', 'a', 'l', 'h', 'o', 's', 't']

/-- `is_localhost_domain` (identical in both source files):
`if (!hostname) return 0; size_t len = strlen(hostname);
if (len >= 10 && strcmp(hostname + len - 10, ".localhost") == 0) return 1;
return 0;` — comparing the C string from offset `len - 10` against
`".localhost"` is comparing the trailing ten bytes. -/
def is_localhost_domain : Option (List Char) → Bool
  | none => false
  | some hostname =>
      let len := hostname.length
      if 10 ≤ len ∧ hostname.drop (len - 10) = localhostSuffix then true else false

/-- C's `isspace` in the default locale (the characters `atoi` skips). -/
def isSpaceByte (c : Char) : Bool :=
  c = ' ' || c = '\t' || c = '\n' || c = Char.ofNat 11 || c = Char.ofNat 12 || c = '\r'

/-- Accumulate the leading run of decimal digits, as `atoi` does after
the sign; stops at the first non-digit. -/
def atoiDigits : List Char → Int → Int
  | [], acc => acc
  | c :: cs, acc =>
      if '0' ≤ c && c ≤ '9' then atoiDigits cs (acc * 10 + ((c.toNat - '0'.toNat : Nat) : Int))
      else acc

/-- C `atoi`: skip leading whitespace, read an optional sign, then a run
of decimal digits; any other input yields 0.  (Out-of-`int`-range inputs
are undefined behaviour in C; the model keeps the mathematical value.) -/
def atoi (s : List Char) : Int :=
  match s.dropWhile isSpaceByte with
  | '-' :: rest => - atoiDigits rest 0
  | '+' :: rest => atoiDigits rest 0
  | rest => atoiDigits rest 0

/-- C's conversion of a nonnegative `int` to `uint16_t` (the parameter
type of `htons`): reduction modulo 2^16. -/
def toUInt16 (p : Int) : Nat := (p % 65536).toNat

/-- The fields of `struct addrinfo` the code reads from the caller's
`hints`. -/
structure AddrInfoHints where
  ai_flags : Int
  ai_family : Int
  ai_socktype : Int
  ai_protocol : Int
deriving DecidableEq, Repr

/-- `hints && hints->ai_family == AF_INET6`. -/
def requestsIPv6 : Option AddrInfoHints → Bool
  | none => false
  | some h => if h.ai_family = AF_INET6 then true else false

/-- The `struct sockaddr_in` payload the builder fills: family, the four
address bytes, and the 16-bit port.  `sin_port` holds the 16-bit value
handed to `htons`; `htons` itself only reorders the two bytes in memory
(network byte order), which a value-level model does not distinguish.
The macOS `sin_len` field (absent on Linux, untouched by every claim)
is omitted. -/
structure SockAddrIn where
  sin_family : Int
  sin_addr : Nat × Nat × Nat × Nat
  sin_port : Nat
deriving DecidableEq, Repr

/-- The synthetic `struct addrinfo` record.  `ai_next` is `Option Unit`
(the code always stores NULL, i.e. `none`); `ai_canonname` likewise. -/
structure AddrInfo where
  ai_flags : Int
  ai_family : Int
  ai_socktype : Int
  ai_protocol : Int
  ai_addrlen : Nat
  ai_addr : SockAddrIn
  ai_canonname : Option (List Char)
  ai_next : Option Unit
deriving DecidableEq, Repr

/-- `make_localhost_result(service, hints)` (identical claim-relevant
logic in both source files).  `allocAi`/`allocSa` model the two `calloc`
calls: either failing makes the builder return NULL.  `calloc` zeroes
the record, so `sin_port` stays 0 when `service` is NULL. -/
def make_localhost_result (allocAi allocSa : Bool)
    (service : Option (List Char)) (hints : Option AddrInfoHints) : Option AddrInfo :=
  if !allocAi then none
  else if !allocSa then none
  else
    let sin_port : Nat :=
      match service with
      | none => 0
      | some s =>
          let port := atoi s
          toUInt16 (if port > 0 then port else 0)
    let sa : SockAddrIn :=
      { sin_family := AF_INET, sin_addr := (127, 0, 0, 1), sin_port := sin_port }
    let socktype0 : Int := match hints with | some h => h.ai_socktype | none => SOCK_STREAM
    let protocol0 : Int := match hints with | some h => h.ai_protocol | none => IPPROTO_TCP
    some
      { ai_flags := match hints with | some h => h.ai_flags | none => 0
        ai_family := AF_INET
        ai_socktype := if socktype0 = 0 then SOCK_STREAM else socktype0
        ai_protocol := if protocol0 = 0 then IPPROTO_TCP else protocol0
        ai_addrlen := 16
        ai_addr := sa
        ai_canonname := none
        ai_next := none }

/-- What a call to the synchronous hook does observably: the returned
status, the record written through `*res` (if any), and whether the
real resolver was invoked. -/
structure SyncOutcome where
  status : Int
  res : Option AddrInfo
  realCalled : Bool
deriving DecidableEq, Repr

/-- The real synchronous resolver, as an oracle: from the forwarded
arguments to (status, record written through `*res`). -/
def RealResolver : Type :=
  Option (List Char) → Option (List Char) → Option AddrInfoHints → Int × Option AddrInfo

/-- `hooked_getaddrinfo` from src/dylib/lohost_dns_full.c: classify the
node; on a reserved name with hints not requesting `AF_INET6`, try the
builder and on success return 0 with the synthetic record; every other
path falls through to the real `getaddrinfo` and returns its result. -/
def hooked_getaddrinfo (allocAi allocSa : Bool) (real : RealResolver)
    (node service : Option (List Char)) (hints : Option AddrInfoHints) : SyncOutcome :=
  if is_localhost_domain node then
    if requestsIPv6 hints then
      let r := real node service hints
      { status := r.1, res := r.2, realCalled := true }
    else
      match make_localhost_result allocAi allocSa service hints with
      | some result => { status := 0, res := some result, realCalled := false }
      | none =>
          let r := real node service hints
          { status := r.1, res := r.2, realCalled := true }
  else
    let r := real node service hints
    { status := r.1, res := r.2, realCalled := true }

/-- `getaddrinfo` from src/native/linux/lohost_dns.c: first lazily
resolve the real function (`realFn = none` models a failed
`dlsym(RTLD_NEXT, "getaddrinfo")`, returning `EAI_SYSTEM` without
forwarding); thereafter the body is identical to the dylib hook. -/
def linux_getaddrinfo (allocAi allocSa : Bool) (realFn : Option RealResolver)
    (node service : Option (List Char)) (hints : Option AddrInfoHints) : SyncOutcome :=
  match realFn with
  | none => { status := EAI_SYSTEM, res := none, realCalled := false }
  | some real =>
      if is_localhost_domain node then
        if requestsIPv6 hints then
          let r := real node service hints
          { status := r.1, res := r.2, realCalled := true }
        else
          match make_localhost_result allocAi allocSa service hints with
          | some result => { status := 0, res := some result, realCalled := false }
          | none =>
              let r := real node service hints
              { status := r.1, res := r.2, realCalled := true }
      else
        let r := real node service hints
        { status := r.1, res := r.2, realCalled := true }

/-- What a call to `hooked_getaddrinfo_async_start` does observably:
its int32 return status, the list of callback invocations the hook
itself performed (each a (status, record) pair, in order), the value the
hook wrote through `*port` (if it wrote one), and whether the captured
real async entry point was invoked. -/
structure AsyncOutcome where
  status : Int
  callbackCalls : List (Int × Option AddrInfo)
  portOut : Option Int
  realCalled : Bool
deriving DecidableEq, Repr

/-- The captured real `getaddrinfo_async_start`, as an oracle giving the
status it returns on the forwarded arguments (its own callback activity
is outside the hook's code). -/
def RealAsyncStart : Type :=
  Option (List Char) → Option (List Char) → Option AddrInfoHints → Int

/-- `hooked_getaddrinfo_async_start` from src/dylib/lohost_dns_full.c.
`captured` is the `real_async_start` register (`none` = not captured),
`hasPort`/`hasCallback` model the NULL-ness of the `port` and `callback`
pointers.  On a reserved node a successful build invokes the callback
with (0, record), writes `*port = 0` and returns 0 — note the code
checks no IPv6 hint here, unlike the synchronous hook.  Otherwise it
forwards to `captured` when set, and when unset invokes the callback
with (-1, NULL) and returns -1. -/
def hooked_getaddrinfo_async_start (allocAi allocSa : Bool)
    (captured : Option RealAsyncStart) (hasPort hasCallback : Bool)
    (node service : Option (List Char)) (hints : Option AddrInfoHints) : AsyncOutcome :=
  let fallback : AsyncOutcome :=
    match captured with
    | some real =>
        { status := real node service hints, callbackCalls := [], portOut := none
          realCalled := true }
    | none =>
        { status := -1
          callbackCalls := if hasCallback then [(-1, none)] else []
          portOut := none, realCalled := false }
  if is_localhost_domain node then
    match make_localhost_result allocAi allocSa service hints with
    | some result =>
        { status := 0
          callbackCalls := if hasCallback then [(0, some result)] else []
          portOut := if hasPort then some 0 else none
          realCalled := false }
    | none => fallback
  else fallback

/-- What `hooked_dlsym` returns to its caller: either the address of the
replacement async entry point, or the real `dlsym` result passed
through. -/
inductive DlsymRet where
  | hookAsyncStart : DlsymRet
  | passthrough : Option Nat → DlsymRet
deriving DecidableEq, Repr

/-- The symbol name `hooked_dlsym` intercepts. -/
def asyncStartSymbol : List Char :=
  ['g', 'e', 't', 'a', 'd', 'd', 'r', 'i', 'n', 'f', 'o', '_',
   'a', 's', 'y', 'n', 'c', '_', 's', 't', 'a', 'r', 't']

/-- `hooked_dlsym` from src/dylib/lohost_dns_full.c.  `st` is the
`real_async_start` register (addresses are opaque `Nat`s; `none` = NULL),
`realResult` what the real `dlsym` returned.  For the exact symbol
`"getaddrinfo_async_start"` it captures `realResult` only when that is
non-null and the register is still unset, and always answers with the
hook's address; every other symbol passes through untouched. -/
def hooked_dlsym (st : Option Nat) (symbol : Option (List Char))
    (realResult : Option Nat) : Option Nat × DlsymRet :=
  match symbol with
  | some s =>
      if s = asyncStartSymbol then
        let st2 : Option Nat :=
          match realResult, st with
          | some a, none => some a
          | _, _ => st
        (st2, DlsymRet.hookAsyncStart)
      else (st, DlsymRet.passthrough realResult)
  | none => (st, DlsymRet.passthrough realResult)

/-- Run a sequence of `hooked_dlsym` calls, threading the capture
register; returns the final register. -/
def runDlsymCalls (st : Option Nat) : List (Option (List Char) × Option Nat) → Option Nat
  | [] => st
  | (sym, r) :: rest => runDlsymCalls (hooked_dlsym st sym r).1 rest

/-- The first non-null real-lookup result among the calls that asked for
the async-start symbol: the address the spec says the register must
hold. -/
def firstCapture : List (Option (List Char) × Option Nat) → Option Nat
  | [] => none
  | (sym, r) :: rest =>
      if sym = some asyncStartSymbol then
        match r with
        | some a => some a
        | none => firstCapture rest
      else firstCapture rest

/-- A helper record: the synthetic result under absent hints (flags 0,
stream/TCP defaults) with port `p` — used to name concrete outputs of
the builder in closed statements. -/
def portRecord (p : Nat) : AddrInfo :=
  { ai_flags := 0, ai_family := AF_INET, ai_socktype := SOCK_STREAM,
    ai_protocol := IPPROTO_TCP, ai_addrlen := 16,
    ai_addr := { sin_family := AF_INET, sin_addr := (127, 0, 0, 1), sin_port := p },
    ai_canonname := none, ai_next := none }

/-- One `hooked_dlsym` step never disturbs an already-set capture
register. -/
theorem hooked_dlsym_fst_of_some (a : Nat) (sym : Option (List Char))
    (r : Option Nat) : (hooked_dlsym (some a) sym r).1 = some a := by
  rcases sym with _ | s
  · rfl
  · by_cases hs : s = asyncStartSymbol <;> cases r <;> simp [hooked_dlsym, hs]

/-- A set capture register survives any sequence of lookup calls. -/
theorem runDlsymCalls_of_some (a : Nat) :
    ∀ calls : List (Option (List Char) × Option Nat),
      runDlsymCalls (some a) calls = some a
  | [] => rfl
  | (sym, r) :: rest => by
      rw [runDlsymCalls, hooked_dlsym_fst_of_some]
      exact runDlsymCalls_of_some a rest

/-- Starting unset, the register ends holding the first non-null result
of a lookup for the async-start symbol. -/
theorem runDlsymCalls_of_none :
    ∀ calls : List (Option (List Char) × Option Nat),
      runDlsymCalls none calls = firstCapture calls
  | [] => rfl
  | (sym, r) :: rest => by
      rcases sym with _ | s
      · simpa [runDlsymCalls, firstCapture, hooked_dlsym] using runDlsymCalls_of_none rest
      · by_cases hs : s = asyncStartSymbol
        · subst hs
          cases r with
          | none =>
              simpa [runDlsymCalls, firstCapture, hooked_dlsym] using
                runDlsymCalls_of_none rest
          | some a =>
              simpa [runDlsymCalls, firstCapture, hooked_dlsym] using
                runDlsymCalls_of_some a rest
        · simpa [runDlsymCalls, firstCapture, hooked_dlsym, hs] using
            runDlsymCalls_of_none rest

/-- C1: the classifier `is_localhost_domain` returns false on a NULL or
empty hostname, and on any hostname returns true exactly when the length
is at least 10 and the trailing 10 bytes equal the literal
`".localhost"` — equivalently, when the hostname is some prefix followed
by `".localhost"` (case-sensitive, byte-exact). -/
theorem is_localhost_domain_spec :
    is_localhost_domain none = false ∧
    is_localhost_domain (some []) = false ∧
    ∀ s : List Char,
      (is_localhost_domain (some s) = true ↔
        10 ≤ s.length ∧ s.drop (s.length - 10) = localhostSuffix) ∧
      (is_localhost_domain (some s) = true ↔ ∃ p, s = p ++ localhostSuffix) := by
  refine ⟨rfl, rfl, fun s => ?_⟩
  have hbase : is_localhost_domain (some s) = true ↔
      10 ≤ s.length ∧ s.drop (s.length - 10) = localhostSuffix := by
    by_cases h : 10 ≤ s.length ∧ s.drop (s.length - 10) = localhostSuffix <;>
      simp [is_localhost_domain, h]
  refine ⟨hbase, hbase.trans ?_⟩
  constructor
  · rintro ⟨hlen, hdrop⟩
    exact ⟨s.take (s.length - 10), by rw [← hdrop]; exact (List.take_append_drop _ s).symm⟩
  · rintro ⟨p, rfl⟩
    have hsuf : localhostSuffix.length = 10 := rfl
    have hlen : (p ++ localhostSuffix).length = p.length + 10 := by
      simp [List.length_append, hsuf]
    constructor
    · omega
    · rw [hlen, Nat.add_sub_cancel, List.drop_left]

/-- C2: the synchronous hook returns status 0 with the synthetic record
and does not invoke the real resolver exactly when the node is reserved,
the hints do not request `AF_INET6` and the builder succeeds; in every
other case it forwards the original arguments to the real resolver and
returns its status and record verbatim.  The Linux `getaddrinfo` hook
(once its lazy lookup of the real resolver has succeeded) behaves
identically. -/
theorem hooked_getaddrinfo_spec :
    ∀ (allocAi allocSa : Bool) (real realFn : RealResolver)
      (node service : Option (List Char)) (hints : Option AddrInfoHints),
      hooked_getaddrinfo allocAi allocSa real node service hints =
        (if is_localhost_domain node && !requestsIPv6 hints &&
            (make_localhost_result allocAi allocSa service hints).isSome then
          { status := 0, res := make_localhost_result allocAi allocSa service hints,
            realCalled := false }
        else
          { status := (real node service hints).1, res := (real node service hints).2,
            realCalled := true }) ∧
      linux_getaddrinfo allocAi allocSa (some realFn) node service hints =
        (if is_localhost_domain node && !requestsIPv6 hints &&
            (make_localhost_result allocAi allocSa service hints).isSome then
          { status := 0, res := make_localhost_result allocAi allocSa service hints,
            realCalled := false }
        else
          { status := (realFn node service hints).1, res := (realFn node service hints).2,
            realCalled := true }) := by
  intro allocAi allocSa real realFn node service hints
  cases hld : is_localhost_domain node <;>
    cases hip : requestsIPv6 hints <;>
      cases hmk : make_localhost_result allocAi allocSa service hints <;>
        simp [hooked_getaddrinfo, linux_getaddrinfo, hld, hip, hmk]

/-- C3: at the reserved node `"a.localhost"` with hints explicitly
requesting `AF_INET6` (and allocation succeeding), the async hook
synthesizes an IPv4 record and invokes the callback with status 0,
writing `*port = 0` and never calling the captured real resolver: the
IPv6 skip of the synchronous path is absent from
`hooked_getaddrinfo_async_start`. -/
theorem async_start_ipv6_not_skipped :
    hooked_getaddrinfo_async_start true true (some (fun _ _ _ => 99)) true true
        (some ('a' :: localhostSuffix)) none
        (some { ai_flags := 0, ai_family := AF_INET6, ai_socktype := 0, ai_protocol := 0 }) =
      { status := 0, callbackCalls := [(0, some (portRecord 0))], portOut := some 0,
        realCalled := false } := by
  decide

/-- C4: the capture register is write-once: once it holds an address it
is unchanged by any further sequence of lookup calls, whatever addresses
those return; and starting unset, after any sequence of calls it holds
exactly the first non-null address returned by a lookup for the
async-start symbol. -/
theorem real_async_start_write_once :
    (∀ (a : Nat) (calls : List (Option (List Char) × Option Nat)),
        runDlsymCalls (some a) calls = some a) ∧
    (∀ calls : List (Option (List Char) × Option Nat),
        runDlsymCalls none calls = firstCapture calls) :=
  ⟨runDlsymCalls_of_some, runDlsymCalls_of_none⟩

/-- C5: every record the builder returns is a single IPv4 record (no
next element) bound to 127.0.0.1; flags, socket type and protocol are
copied from the hints when present (flags default to 0 when hints are
absent), and a zero socket type or protocol is defaulted to
`SOCK_STREAM` and `IPPROTO_TCP` respectively. -/
theorem make_localhost_result_fields
    (allocAi allocSa : Bool) (service : Option (List Char))
    (hints : Option AddrInfoHints) (r : AddrInfo)
    (h : make_localhost_result allocAi allocSa service hints = some r) :
    r.ai_family = AF_INET ∧ r.ai_addr.sin_family = AF_INET ∧
    r.ai_addr.sin_addr = (127, 0, 0, 1) ∧ r.ai_next = none ∧
    r.ai_flags = (match hints with | some h0 => h0.ai_flags | none => 0) ∧
    r.ai_socktype =
      (match hints with
       | some h0 => if h0.ai_socktype = 0 then SOCK_STREAM else h0.ai_socktype
       | none => SOCK_STREAM) ∧
    r.ai_protocol =
      (match hints with
       | some h0 => if h0.ai_protocol = 0 then IPPROTO_TCP else h0.ai_protocol
       | none => IPPROTO_TCP) := by
  cases allocAi <;> cases allocSa <;> simp [make_localhost_result] at h
  subst h
  cases hints <;> simp

/-- C5 witness: the builder at service `"80"` with absent hints. -/
theorem make_localhost_result_fields_witness :
    make_localhost_result true true (some ['8', '0']) none = some (portRecord 80) ∧
    ((portRecord 80).ai_family = AF_INET ∧ (portRecord 80).ai_addr.sin_family = AF_INET ∧
     (portRecord 80).ai_addr.sin_addr = (127, 0, 0, 1) ∧ (portRecord 80).ai_next = none ∧
     (portRecord 80).ai_flags = 0 ∧ (portRecord 80).ai_socktype = SOCK_STREAM ∧
     (portRecord 80).ai_protocol = IPPROTO_TCP) :=
  ⟨by decide,
    make_localhost_result_fields true true (some ['8', '0']) none (portRecord 80) (by decide)⟩

/-- C6: the 16-bit port stored in the synthetic record equals
`atoi(service)` reduced modulo 2^16 when the service is present and
`atoi` yields a positive value, and 0 otherwise (service absent,
non-numeric, zero or negative); no upper-bound validation is applied. -/
theorem make_localhost_result_port
    (allocAi allocSa : Bool) (service : Option (List Char))
    (hints : Option AddrInfoHints) (r : AddrInfo)
    (h : make_localhost_result allocAi allocSa service hints = some r) :
    r.ai_addr.sin_port =
      (match service with
       | none => 0
       | some s => if 0 < atoi s then (atoi s % 65536).toNat else 0) := by
  cases allocAi <;> cases allocSa <;> simp [make_localhost_result] at h
  subst h
  cases service with
  | none => rfl
  | some s => by_cases hp : 0 < atoi s <;> simp [toUInt16, hp]

/-- C6 witness: service `"70000"` wraps through the 16-bit field to
70000 mod 65536 = 4464. -/
theorem make_localhost_result_port_witness :
    make_localhost_result true true (some ['7', '0', '0', '0', '0']) none =
      some (portRecord 4464) ∧
    (portRecord 4464).ai_addr.sin_port =
      (if 0 < atoi ['7', '0', '0', '0', '0']
       then (atoi ['7', '0', '0', '0', '0'] % 65536).toNat else 0) ∧
    (portRecord 4464).ai_addr.sin_port = 4464 :=
  ⟨by decide,
    make_localhost_result_port true true (some ['7', '0', '0', '0', '0']) none
      (portRecord 4464) (by decide),
    by decide⟩

/-- C7: on a reserved node with a non-null callback and port pointer,
when the builder succeeds the async hook invokes the callback exactly
once — synchronously, as part of the call — with status 0 and the
non-null synthetic record, writes 0 through the port pointer, does not
call the captured real entry point, and returns 0. -/
theorem async_start_reserved_callback
    (allocAi allocSa : Bool) (captured : Option RealAsyncStart)
    (node service : Option (List Char)) (hints : Option AddrInfoHints) (r : AddrInfo)
    (hres : is_localhost_domain node = true)
    (hmk : make_localhost_result allocAi allocSa service hints = some r) :
    hooked_getaddrinfo_async_start allocAi allocSa captured true true node service hints =
      { status := 0, callbackCalls := [(0, some r)], portOut := some 0,
        realCalled := false } := by
  simp [hooked_getaddrinfo_async_start, hres, hmk]

/-- C7 witness: the async hook at node `"x.localhost"` with no service,
no hints and an uncaptured real entry point. -/
theorem async_start_reserved_callback_witness :
    is_localhost_domain (some ('x' :: localhostSuffix)) = true ∧
    make_localhost_result true true none none = some (portRecord 0) ∧
    hooked_getaddrinfo_async_start true true none true true
        (some ('x' :: localhostSuffix)) none none =
      { status := 0, callbackCalls := [(0, some (portRecord 0))], portOut := some 0,
        realCalled := false } :=
  ⟨by decide, by decide,
    async_start_reserved_callback true true none (some ('x' :: localhostSuffix)) none none
      (portRecord 0) (by decide) (by decide)⟩

/-- C8: when no synthetic record is produced (node not reserved, or the
builder fails) and the real async entry point has not been captured, the
hook invokes the callback with status -1 and a null record and returns
the failure status -1 — a defined degraded fallback. -/
theorem async_start_uncaptured_fallback
    (allocAi allocSa hasPort : Bool)
    (node service : Option (List Char)) (hints : Option AddrInfoHints)
    (h : is_localhost_domain node = false ∨
         make_localhost_result allocAi allocSa service hints = none) :
    hooked_getaddrinfo_async_start allocAi allocSa none hasPort true node service hints =
      { status := -1, callbackCalls := [(-1, none)], portOut := none,
        realCalled := false } := by
  rcases h with h | h
  · simp [hooked_getaddrinfo_async_start, h]
  · cases hld : is_localhost_domain node <;>
      simp [hooked_getaddrinfo_async_start, hld, h]

/-- C8 witness: the async hook at the non-reserved node `"example.com"`
before any capture. -/
theorem async_start_uncaptured_fallback_witness :
    is_localhost_domain (some ['e', 'x', 'a', 'm', 'p', 'l', 'e', '.', 'c', 'o', 'm']) =
      false ∧
    hooked_getaddrinfo_async_start true true none true true
        (some ['e', 'x', 'a', 'm', 'p', 'l', 'e', '.', 'c', 'o', 'm']) none none =
      { status := -1, callbackCalls := [(-1, none)], portOut := none,
        realCalled := false } :=
  ⟨by decide,
    async_start_uncaptured_fallback true true true
      (some ['e', 'x', 'a', 'm', 'p', 'l', 'e', '.', 'c', 'o', 'm']) none none
      (Or.inl (by decide))⟩

/-- C9: two calls of the synchronous hook with identical
reserved-hostname arguments on the successful synthetic path yield
records equal in every field (family, address, port, flags, socket
type, protocol, length, next). -/
theorem hooked_getaddrinfo_idempotent
    (allocAi allocSa : Bool) (real : RealResolver)
    (node service : Option (List Char)) (hints : Option AddrInfoHints)
    (r1 r2 : AddrInfo)
    (hres : is_localhost_domain node = true)
    (hsyn : (hooked_getaddrinfo allocAi allocSa real node service hints).realCalled = false)
    (h1 : (hooked_getaddrinfo allocAi allocSa real node service hints).res = some r1)
    (h2 : (hooked_getaddrinfo allocAi allocSa real node service hints).res = some r2) :
    r1.ai_family = r2.ai_family ∧ r1.ai_addr.sin_family = r2.ai_addr.sin_family ∧
    r1.ai_addr.sin_addr = r2.ai_addr.sin_addr ∧
    r1.ai_addr.sin_port = r2.ai_addr.sin_port ∧ r1.ai_flags = r2.ai_flags ∧
    r1.ai_socktype = r2.ai_socktype ∧ r1.ai_protocol = r2.ai_protocol ∧
    r1.ai_addrlen = r2.ai_addrlen ∧ r1.ai_next = r2.ai_next := by
  have h12 : r1 = r2 := Option.some.inj (h1.symm.trans h2)
  subst h12
  exact ⟨rfl, rfl, rfl, rfl, rfl, rfl, rfl, rfl, rfl⟩

/-- C9 witness: two identical calls at node `"x.localhost"`, service
`"80"`, no hints. -/
theorem hooked_getaddrinfo_idempotent_witness :
    is_localhost_domain (some ('x' :: localhostSuffix)) = true ∧
    (hooked_getaddrinfo true true (fun _ _ _ => (0, none))
        (some ('x' :: localhostSuffix)) (some ['8', '0']) none).realCalled = false ∧
    (hooked_getaddrinfo true true (fun _ _ _ => (0, none))
        (some ('x' :: localhostSuffix)) (some ['8', '0']) none).res =
      some (portRecord 80) ∧
    ((portRecord 80).ai_family = (portRecord 80).ai_family ∧
     (portRecord 80).ai_addr.sin_family = (portRecord 80).ai_addr.sin_family ∧
     (portRecord 80).ai_addr.sin_addr = (portRecord 80).ai_addr.sin_addr ∧
     (portRecord 80).ai_addr.sin_port = (portRecord 80).ai_addr.sin_port ∧
     (portRecord 80).ai_flags = (portRecord 80).ai_flags ∧
     (portRecord 80).ai_socktype = (portRecord 80).ai_socktype ∧
     (portRecord 80).ai_protocol = (portRecord 80).ai_protocol ∧
     (portRecord 80).ai_addrlen = (portRecord 80).ai_addrlen ∧
     (portRecord 80).ai_next = (portRecord 80).ai_next) :=
  ⟨by decide, by decide, by decide,
    hooked_getaddrinfo_idempotent true true (fun _ _ _ => (0, none))
      (some ('x' :: localhostSuffix)) (some ['8', '0']) none
      (portRecord 80) (portRecord 80) (by decide) (by decide) (by decide) (by decide)⟩

/-- C10: a lookup for the exact symbol `"getaddrinfo_async_start"`
always answers with the replacement entry point's address, whatever the
real lookup returned; and when the real lookup returns NULL no capture
occurs — the register keeps its previous value, in particular it stays
unset when it was unset. -/
theorem hooked_dlsym_returns_hook (st : Option Nat) (r : Option Nat) :
    (hooked_dlsym st (some asyncStartSymbol) r).2 = DlsymRet.hookAsyncStart ∧
    (hooked_dlsym st (some asyncStartSymbol) none).1 = st ∧
    (hooked_dlsym none (some asyncStartSymbol) none).1 = none := by
  refine ⟨?_, ?_, rfl⟩
  · cases st <;> cases r <;> simp [hooked_dlsym]
  · cases st <;> simp [hooked_dlsym]

end Lohost
